import Mathlib

/-!
Verification of the Grade model declared in src/mothra/accounts/models.py.

The source declares a Django model with two fields:
  level = models.IntegerField(validators=[MaxValueValidator(12), MinValueValidator(-1)])
  name  = models.CharField(max_length=2)
a string representation returning `name`, and `Meta.ordering = ("level",)`.

The embedding below follows Django's documented semantics for these
declarations: `MaxValueValidator(limit)` raises when the value is greater
than the limit, `MinValueValidator(limit)` raises when the value is less
than the limit, `CharField(max_length=2)` carries a `MaxLengthValidator(2)`
and, with the default `blank=False`, `Model.full_clean` rejects the empty
string; `full_clean` runs before persistence in the validate-then-save
flow, so a validation failure leaves the stored data unchanged.
-/

namespace Mothra

/-- The `Grade` record: the `level` integer field and the `name` character
field, in declaration order. -/
structure Grade where
  level : Int
  name : String
deriving Repr, DecidableEq

/-- The validation failures the declared fields can produce. -/
inductive FieldError where
  | maxValue (limit : Int) (value : Int)
  | minValue (limit : Int) (value : Int)
  | maxLength (limit : Nat) (length : Nat)
  | blank
deriving Repr, DecidableEq

/-- Django `MaxValueValidator(limit)`: fails exactly when the value is
greater than the limit. -/
def maxValueValidator (limit : Int) (value : Int) : Except FieldError Unit :=
  if value > limit then Except.error (FieldError.maxValue limit value)
  else Except.ok ()

/-- Django `MinValueValidator(limit)`: fails exactly when the value is
less than the limit. -/
def minValueValidator (limit : Int) (value : Int) : Except FieldError Unit :=
  if value < limit then Except.error (FieldError.minValue limit value)
  else Except.ok ()

/-- Django `MaxLengthValidator(limit)`, attached by `CharField(max_length=limit)`:
fails exactly when the string is longer than the limit. -/
def maxLengthValidator (limit : Nat) (value : String) : Except FieldError Unit :=
  if value.length > limit then
    Except.error (FieldError.maxLength limit value.length)
  else Except.ok ()

/-- Django `Field.validate` blank check: `CharField` defaults to
`blank=False`, so an empty value is rejected during `full_clean`. -/
def blankCheck (value : String) : Except FieldError Unit :=
  if value = "" then Except.error FieldError.blank else Except.ok ()

/-- Cleaning the `level` field: its validators run in declaration order,
`MaxValueValidator(12)` then `MinValueValidator(-1)`. -/
def cleanLevel (level : Int) : Except FieldError Unit :=
  match maxValueValidator 12 level with
  | Except.error e => Except.error e
  | Except.ok _ => minValueValidator (-1) level

/-- Cleaning the `name` field: Django checks blankness in `Field.validate`
before running the field validators, here `MaxLengthValidator(2)`. -/
def cleanName (name : String) : Except FieldError Unit :=
  match blankCheck name with
  | Except.error e => Except.error e
  | Except.ok _ => maxLengthValidator 2 name

/-- `Model.full_clean` on a `Grade`: cleans the fields in declaration
order, `level` then `name`. -/
def fullClean (g : Grade) : Except FieldError Unit :=
  match cleanLevel g.level with
  | Except.error e => Except.error e
  | Except.ok _ => cleanName g.name

/-- The model's string representation: `__str__` returns `self.name`. -/
def Grade.str (g : Grade) : String := g.name

/-- The comparison behind `Meta.ordering = ("level",)`. -/
def Grade.levelLE (a b : Grade) : Prop := a.level ≤ b.level

instance : DecidableRel Grade.levelLE :=
  fun a b => inferInstanceAs (Decidable (a.level ≤ b.level))

instance : IsTotal Grade Grade.levelLE :=
  ⟨fun a b => Int.le_total a.level b.level⟩

instance : IsTrans Grade Grade.levelLE :=
  ⟨fun _ _ _ h1 h2 => le_trans h1 h2⟩

/-- The default listing of `Grade` records under `Meta.ordering = ("level",)`:
the same records arranged by ascending `level`. -/
def orderedListing (gs : List Grade) : List Grade :=
  List.insertionSort Grade.levelLE gs

/-- The validate-then-save flow: `full_clean` runs before persistence, so
a validation failure is surfaced to the caller and the stored records are
left unchanged, while success appends the record. -/
def validatedSave (db : List Grade) (g : Grade) :
    Option FieldError × List Grade :=
  match fullClean g with
  | Except.error e => (some e, db)
  | Except.ok _ => (none, db ++ [g])

theorem cleanLevel_ok_iff (lv : Int) :
    cleanLevel lv = Except.ok () ↔ (-1 ≤ lv ∧ lv ≤ 12) := by
  by_cases h1 : lv > 12
  · simp only [cleanLevel, maxValueValidator, if_pos h1]
    constructor
    · intro h; cases h
    · intro h; omega
  · by_cases h2 : lv < -1
    · simp only [cleanLevel, maxValueValidator, minValueValidator,
        if_neg h1, if_pos h2]
      constructor
      · intro h; cases h
      · intro h; omega
    · simp only [cleanLevel, maxValueValidator, minValueValidator,
        if_neg h1, if_neg h2]
      constructor
      · intro _; omega
      · intro _; trivial

theorem cleanName_ok_iff (s : String) :
    cleanName s = Except.ok () ↔ (s ≠ "" ∧ s.length ≤ 2) := by
  by_cases h1 : s = ""
  · simp only [cleanName, blankCheck, if_pos h1]
    constructor
    · intro h; cases h
    · intro h; exact absurd h1 h.1
  · by_cases h2 : s.length > 2
    · simp only [cleanName, blankCheck, maxLengthValidator, if_neg h1, if_pos h2]
      constructor
      · intro h; cases h
      · intro h; omega
    · simp only [cleanName, blankCheck, maxLengthValidator, if_neg h1, if_neg h2]
      constructor
      · intro _; exact ⟨h1, by omega⟩
      · intro _; trivial

theorem fullClean_ok_iff (g : Grade) :
    fullClean g = Except.ok () ↔
      (-1 ≤ g.level ∧ g.level ≤ 12 ∧ g.name ≠ "" ∧ g.name.length ≤ 2) := by
  unfold fullClean
  rcases hc : cleanLevel g.level with e | u
  · constructor
    · intro h; cases h
    · intro h
      have : cleanLevel g.level = Except.ok () :=
        (cleanLevel_ok_iff g.level).mpr ⟨h.1, h.2.1⟩
      rw [hc] at this; cases this
  · have hlv : -1 ≤ g.level ∧ g.level ≤ 12 :=
      (cleanLevel_ok_iff g.level).mp (by rw [hc])
    constructor
    · intro h
      have hn := (cleanName_ok_iff g.name).mp h
      exact ⟨hlv.1, hlv.2, hn.1, hn.2⟩
    · intro h
      exact (cleanName_ok_iff g.name).mpr ⟨h.2.2.1, h.2.2.2⟩

/-- C1: every `Grade` that passes validation satisfies the invariant
`-1 <= level <= 12`; a validated state never carries a level outside the
inclusive range. -/
theorem grade_validated_level_in_range (g : Grade)
    (h : fullClean g = Except.ok ()) : -1 ≤ g.level ∧ g.level ≤ 12 := by
  have hg := (fullClean_ok_iff g).mp h
  exact ⟨hg.1, hg.2.1⟩

theorem grade_validated_level_in_range_witness :
    -1 ≤ (Grade.mk 5 "5").level ∧ (Grade.mk 5 "5").level ≤ 12 :=
  grade_validated_level_in_range (Grade.mk 5 "5") (by rfl)

/-- C2: for every level in the inclusive range [-1, 12], the level
validators accept the value, so a `Grade` built with such a level cleans
its level field without error. -/
theorem grade_valid_level_accepted (g : Grade)
    (h1 : -1 ≤ g.level) (h2 : g.level ≤ 12) :
    cleanLevel g.level = Except.ok () :=
  (cleanLevel_ok_iff g.level).mpr ⟨h1, h2⟩

theorem grade_valid_level_accepted_witness :
    cleanLevel (Grade.mk 0 "K").level = Except.ok () :=
  grade_valid_level_accepted (Grade.mk 0 "K") (by decide) (by decide)

/-- C3: level validation fails for every integer outside [-1, 12]; in
particular it fails at -2 and at 13. -/
theorem grade_out_of_range_level_rejected (lv : Int)
    (h : lv < -1 ∨ 12 < lv) : (cleanLevel lv).isOk = false := by
  rcases hc : cleanLevel lv with e | u
  · rfl
  · have : -1 ≤ lv ∧ lv ≤ 12 := (cleanLevel_ok_iff lv).mp (by rw [hc])
    omega

theorem grade_out_of_range_level_rejected_witness :
    (cleanLevel (-2)).isOk = false ∧ (cleanLevel 13).isOk = false :=
  ⟨grade_out_of_range_level_rejected (-2) (Or.inl (by decide)),
   grade_out_of_range_level_rejected 13 (Or.inr (by decide))⟩

/-- C4: the field-length validation rejects every name longer than 2
characters and passes every name of length at most 2. -/
theorem grade_name_length_check (s : String) :
    (2 < s.length → (maxLengthValidator 2 s).isOk = false) ∧
      (s.length ≤ 2 → maxLengthValidator 2 s = Except.ok ()) := by
  constructor
  · intro h
    simp only [maxLengthValidator, if_pos h]
    rfl
  · intro h
    have hn : ¬ s.length > 2 := by omega
    simp only [maxLengthValidator, if_neg hn]

theorem grade_name_length_check_witness :
    (maxLengthValidator 2 ("abc")).isOk = false ∧
      maxLengthValidator 2 ("ab") = Except.ok () :=
  ⟨(grade_name_length_check ("abc")).1 (by decide),
   (grade_name_length_check ("ab")).2 (by decide)⟩

/-- C5: the string representation of a `Grade` is exactly its `name`
field; in particular a `Grade` named "5" converts to "5". -/
theorem grade_str_eq_name :
    (∀ g : Grade, g.str = g.name) ∧ (Grade.mk 5 "5").str = "5" :=
  ⟨fun _ => rfl, rfl⟩

/-- C6: the default listing under `Meta.ordering = ("level",)` arranges
the given records so that each record's level is at most the next
record's level, and it is a permutation of the given records. -/
theorem grade_default_ordering_ascending (gs : List Grade) :
    List.Chain' (fun a b : Grade => a.level ≤ b.level) (orderedListing gs) ∧
      (orderedListing gs).Perm gs :=
  ⟨(List.sorted_insertionSort Grade.levelLE gs).chain',
   List.perm_insertionSort Grade.levelLE gs⟩

/-- C7 counterexample: the empty string has length at most 2 yet fails
name validation, because `CharField` defaults to `blank=False`; so the
length limit is not the only constraint enforced on `name`. -/
theorem grade_name_length_only_counterexample :
    ("").length ≤ 2 ∧ (cleanName ("")).isOk = false :=
  ⟨by decide, by rfl⟩

/-- C7 amended: the validations applied to the `name` field are the
blank check and the length limit; every non-empty string of length at
most 2 passes name validation. -/
theorem grade_nonblank_short_name_accepted (s : String)
    (h1 : s ≠ "") (h2 : s.length ≤ 2) : cleanName s = Except.ok () :=
  (cleanName_ok_iff s).mpr ⟨h1, h2⟩

theorem grade_nonblank_short_name_accepted_witness :
    cleanName ("K") = Except.ok () :=
  grade_nonblank_short_name_accepted ("K") (by decide) (by decide)

/-- C8: when a record's level is out of range, the validate-then-save
flow surfaces a validation error to the caller and leaves the persisted
records unchanged. -/
theorem grade_invalid_level_save_rejected (db : List Grade) (g : Grade)
    (h : g.level < -1 ∨ 12 < g.level) :
    (validatedSave db g).1.isSome = true ∧ (validatedSave db g).2 = db := by
  unfold validatedSave fullClean
  rcases hc : cleanLevel g.level with e | u
  · exact ⟨rfl, rfl⟩
  · have hlv : -1 ≤ g.level ∧ g.level ≤ 12 :=
      (cleanLevel_ok_iff g.level).mp (by rw [hc])
    omega

theorem grade_invalid_level_save_rejected_witness :
    (validatedSave [] (Grade.mk 13 "13")).1.isSome = true ∧
      (validatedSave [] (Grade.mk 13 "13")).2 = [] :=
  grade_invalid_level_save_rejected [] (Grade.mk 13 "13")
    (Or.inr (by decide))

/-- C9: a `Grade` whose name is the empty string fails `full_clean` even
though the empty string satisfies the length limit, because the `name`
field does not permit blank values. -/
theorem grade_blank_name_rejected (g : Grade) (h : g.name = "") :
    (fullClean g).isOk = false := by
  rcases hc : fullClean g with e | u
  · rfl
  · have hg := (fullClean_ok_iff g).mp (by rw [hc])
    exact absurd h hg.2.2.1

theorem grade_blank_name_rejected_witness :
    (fullClean (Grade.mk 5 "")).isOk = false :=
  grade_blank_name_rejected (Grade.mk 5 "") (by rfl)

/-- C10: the string representation depends only on the `name` field:
two records with equal names render identically whatever their levels. -/
theorem grade_str_depends_only_on_name (g1 g2 : Grade)
    (h : g1.name = g2.name) : g1.str = g2.str := h

theorem grade_str_depends_only_on_name_witness :
    (Grade.mk 0 "K").str = (Grade.mk 12 "K").str :=
  grade_str_depends_only_on_name (Grade.mk 0 "K") (Grade.mk 12 "K") rfl

end Mothra
